import Mathlib

/-!
Shallow embedding of the order/cart core of the `mongodb-laptop-inventory-manager`
repository: the MongoDB-backed catalog (`app/models/database.py`), the guest cart
and checkout routes (`app/routes/guest.py`), the admin order-status route
(`app/routes/admin.py`), the REST API order endpoints (`app/routes/api.py`),
and the guest-app session cart (`guest-app/app.py`).

Collections are modelled as lists of documents; `find_one`/`update_one` act on
the first matching document, as in MongoDB.  Prices are rationals; timestamps
are abstract naturals passed in as a `now` parameter.
-/

namespace Shop

/-- A laptop document in the `laptops` collection (fields the order core reads). -/
structure Laptop where
  brand : String
  model : String
  selling_price : ℚ
  status : String
  date_sold : Option Nat
deriving Repr, DecidableEq

/-- A spare-part document; `price` may be absent (the code reads `part.get('price', 0)`). -/
structure SparePart where
  name : String
  price : Option ℚ
deriving Repr, DecidableEq

/-- The spare-part snapshot embedded in an order item at checkout. -/
structure SparePartDetail where
  part_id : String
  name : String
  price : ℚ
deriving Repr, DecidableEq

/-- A session-cart entry of the admin app's guest routes: a laptop reference,
spare-part id references, and an optional `quantity` key (present only for
items added through the AJAX endpoint). -/
structure CartEntry where
  laptop_id : String
  spare_parts : List String
  quantity : Option Nat
deriving Repr, DecidableEq

/-- An item of an order's `items` array.  `total_price` is optional because the
API `create_order` endpoint stores client-sent items verbatim and only reads
`item.get('total_price', 0)`. -/
structure OrderItem where
  laptop_id : String
  laptop_brand : String
  laptop_model : String
  base_price : ℚ
  spare_parts : List SparePartDetail
  total_price : Option ℚ
deriving Repr, DecidableEq

/-- An order document.  `oid` models the Mongo `_id`; `order_id` is the
human-readable `ORD......` identifier assigned by `OrderModel.create`. -/
structure Order where
  oid : String
  order_id : String
  status : String
  items : List OrderItem
  total_amount : ℚ
deriving Repr, DecidableEq

/-- The database: the collections the order core touches. -/
structure DB where
  laptops : List (String × Laptop)
  spare_parts : List (String × SparePart)
  orders : List Order
deriving Repr, DecidableEq

/-- `LaptopModel.find_by_id`: `find_one({'_id': ObjectId(laptop_id)})`. -/
def findLaptop (db : DB) (id : String) : Option Laptop :=
  (db.laptops.find? (fun p => p.1 == id)).map Prod.snd

/-- `SparePartModel.find_by_id`. -/
def findPart (db : DB) (id : String) : Option SparePart :=
  (db.spare_parts.find? (fun p => p.1 == id)).map Prod.snd

/-- `OrderModel.find_by_id`: lookup by Mongo `_id`. -/
def findOrderByOid (db : DB) (oid : String) : Option Order :=
  db.orders.find? (fun o => o.oid == oid)

/-- Mongo `update_one`: apply `f` to the first element satisfying `p`, if any. -/
def updateFirst {α : Type} (p : α → Bool) (f : α → α) : List α → List α
  | [] => []
  | x :: xs => if p x then f x :: xs else x :: updateFirst p f xs

/-- Decimal digit characters of `n`, most significant first (empty for `0`). -/
def digitChars (n : Nat) : List Char :=
  ((Nat.digits 10 n).reverse).map (fun d => Char.ofNat (48 + d))

/-- Python `f"{n:06d}"`: decimal representation left-padded with zeros to width 6. -/
def zeroPad6 (n : Nat) : List Char :=
  List.replicate (6 - (digitChars n).length) '0' ++ digitChars n

/-- The order id assigned by `OrderModel.create` when `count` order documents
exist: `f"ORD{count + 1:06d}"`. -/
def orderIdString (count : Nat) : String :=
  "ORD" ++ String.mk (zeroPad6 (count + 1))

/-- `ORD\d{6}`: the string is `ORD` followed by exactly six decimal digits. -/
def matchesORD6 (s : String) : Bool :=
  s.data.take 3 == "ORD".data
    && (s.data.drop 3).length == 6
    && (s.data.drop 3).all Char.isDigit

/-- The spare-part snapshot loop of `guest.checkout` (POST branch): for each
referenced part id, if the part resolves, record `{part_id, name, price}` with
`price = part.get('price', 0)`; unresolved ids are skipped. -/
def resolvedParts (db : DB) (pids : List String) : List SparePartDetail :=
  pids.filterMap (fun pid =>
    (findPart db pid).map (fun p => ⟨pid, p.name, p.price.getD 0⟩))

/-- Sum of the prices of a spare-part snapshot. -/
def partsSum (ps : List SparePartDetail) : ℚ :=
  (ps.map (·.price)).sum

/-- The item loop of `guest.checkout` (POST branch): each cart item whose
laptop resolves with status `available` yields an order item whose
`total_price` is the laptop's `selling_price` plus the resolved part prices,
and adds that amount to `total_amount`; other items are skipped. -/
def checkoutItems (db : DB) : List CartEntry → List OrderItem × ℚ
  | [] => ([], 0)
  | ci :: rest =>
    match findLaptop db ci.laptop_id with
    | some l =>
      if l.status == "available" then
        let parts := resolvedParts db ci.spare_parts
        let t := l.selling_price + partsSum parts
        let r := checkoutItems db rest
        (⟨ci.laptop_id, l.brand, l.model, l.selling_price, parts, some t⟩ :: r.1, t + r.2)
      else checkoutItems db rest
    | none => checkoutItems db rest

/-- Outcome of the guest checkout route. -/
inductive CheckoutOutcome where
  | emptyCart
  | placed (order_id : String)
deriving Repr, DecidableEq

/-- `guest.checkout` (POST): redirect with a flash if the session cart is empty,
otherwise build the order from the cart, persist it through `OrderModel.create`
(which stamps `status = 'unconfirmed'` and the counted `order_id`), and clear
the cart.  Returns the outcome, the new database, and the new session cart;
`newOid` stands for the Mongo `_id` chosen by `insert_one`. -/
def guest_checkout (db : DB) (cart : List CartEntry) (newOid : String) :
    CheckoutOutcome × DB × List CartEntry :=
  if cart.isEmpty then (.emptyCart, db, cart)
  else
    let r := checkoutItems db cart
    let oidStr := orderIdString db.orders.length
    let o : Order := ⟨newOid, oidStr, "unconfirmed", r.1, r.2⟩
    (.placed oidStr, { db with orders := db.orders ++ [o] }, [])

/-- One entry of the priced cart projection rendered by `guest.cart`. -/
structure CartViewItem where
  laptop : Laptop
  base_price : ℚ
  spare_parts : List SparePart
  total_price : ℚ
deriving Repr, DecidableEq

/-- `guest.cart`: for each cart entry whose laptop resolves (no status check in
the source), emit a view item priced at `selling_price` plus the resolved part
prices, and accumulate the page total; entries whose laptop is missing are
skipped. -/
def cartView (db : DB) : List CartEntry → List CartViewItem × ℚ
  | [] => ([], 0)
  | ci :: rest =>
    match findLaptop db ci.laptop_id with
    | some l =>
      let parts := ci.spare_parts.filterMap (findPart db)
      let t := l.selling_price + (parts.map (fun p => p.price.getD 0)).sum
      let r := cartView db rest
      (⟨l, l.selling_price, parts, t⟩ :: r.1, t + r.2)
    | none => cartView db rest

/-- One entry of the checkout display page (`guest.checkout`, GET branch). -/
structure DisplayItem where
  laptop : Laptop
  spare_parts : List SparePart
  quantity : Nat
  total_price : ℚ
deriving Repr, DecidableEq

/-- `guest.checkout` (GET branch): the display total of an entry is
`selling_price * quantity` (with `quantity = item.get('quantity', 1)`) plus the
resolved part prices; entries whose laptop is missing are skipped. -/
def checkout_display (db : DB) : List CartEntry → List DisplayItem × ℚ
  | [] => ([], 0)
  | ci :: rest =>
    match findLaptop db ci.laptop_id with
    | some l =>
      let q := ci.quantity.getD 1
      let parts := ci.spare_parts.filterMap (findPart db)
      let t := l.selling_price * (q : ℚ) + (parts.map (fun p => p.price.getD 0)).sum
      let r := checkout_display db rest
      (⟨l, parts, q, t⟩ :: r.1, t + r.2)
    | none => checkout_display db rest

/-- `guest.add_to_cart` (form endpoint): if some cart item already references
`laptop_id`, replace that (first) item's spare-part selection, else append a
new item (which carries no `quantity` key). -/
def add_to_cart (cart : List CartEntry) (lid : String) (parts : List String) :
    List CartEntry :=
  if cart.any (fun i => i.laptop_id == lid) then
    updateFirst (fun i => i.laptop_id == lid) (fun i => { i with spare_parts := parts }) cart
  else cart ++ [⟨lid, parts, none⟩]

/-- `guest.remove_from_cart`: keep exactly the items referencing a different laptop. -/
def remove_from_cart (cart : List CartEntry) (lid : String) : List CartEntry :=
  cart.filter (fun i => i.laptop_id != lid)

/-- `LaptopModel.update(laptop_id, {'status': 'sold', 'date_sold': now})`. -/
def markSold (now : Nat) (l : Laptop) : Laptop :=
  { l with status := "sold", date_sold := some now }

/-- The cascade loop of `admin.update_order_status`: for each item of the
order, set the referenced laptop's status to `sold` with `date_sold = now`. -/
def sellItems (now : Nat) (laptops : List (String × Laptop)) (ids : List String) :
    List (String × Laptop) :=
  ids.foldl
    (fun ls lid => updateFirst (fun p => p.1 == lid) (fun p => (p.1, markSold now p.2)) ls)
    laptops

/-- `admin.update_order_status`: unconditionally write the posted status to the
order (no validation), then, exactly when the posted status is `completed`,
re-read the order and mark every referenced laptop sold. -/
def admin_update_order_status (db : DB) (oid : String) (new_status : String) (now : Nat) :
    DB :=
  let db1 := { db with
    orders := updateFirst (fun o => o.oid == oid)
      (fun o => { o with status := new_status }) db.orders }
  if new_status == "completed" then
    match findOrderByOid db1 oid with
    | some o => { db1 with laptops := sellItems now db1.laptops (o.items.map (·.laptop_id)) }
    | none => db1
  else db1

/-- The fixed status enum of `api.update_order_status`. -/
def validStatuses : List String :=
  ["unconfirmed", "confirmed", "in progress", "completed", "cancelled"]

/-- `api.update_order_status` (PATCH /api/orders/&lt;order_id&gt;): 400 when the body
has no status or a status outside the enum, else `update_one` on `order_id`;
404 when nothing matched, 200 otherwise.  Returns (HTTP status, new DB). -/
def api_update_order_status (db : DB) (order_id : String) (body : Option String) :
    Nat × DB :=
  match body with
  | none => (400, db)
  | some s =>
    if validStatuses.contains s then
      if db.orders.any (fun o => o.order_id == order_id) then
        (200, { db with
          orders := updateFirst (fun o => o.order_id == order_id)
            (fun o => { o with status := s }) db.orders })
      else (404, db)
    else (400, db)

/-- The JSON body of `POST /api/orders`; each field may be absent. -/
structure ApiOrderRequest where
  customer_name : Option String
  email : Option String
  phone : Option String
  address : Option String
  items : Option (List OrderItem)
deriving Repr, DecidableEq

/-- `api.create_order`: 400 when a required field is missing; otherwise persist
an order whose items are the client-sent array verbatim and whose
`total_amount` is `sum(item.get('total_price', 0))`, through
`OrderModel.create`.  Returns (HTTP status, new DB). -/
def api_create_order (db : DB) (req : ApiOrderRequest) (newOid : String) : Nat × DB :=
  match req.customer_name, req.email, req.phone, req.address, req.items with
  | some _, some _, some _, some _, some its =>
    let total := (its.map (fun i => i.total_price.getD 0)).sum
    let o : Order := ⟨newOid, orderIdString db.orders.length, "unconfirmed", its, total⟩
    (201, { db with orders := db.orders ++ [o] })
  | _, _, _, _, _ => (400, db)

/-- A session-cart item of the standalone guest app (`guest-app/app.py`):
a client-priced snapshot appended by its `/cart/add` route. -/
structure GuestCartItem where
  laptop_id : String
  laptop_brand : String
  laptop_model : String
  base_price : ℚ
  spare_parts : List SparePartDetail
  total_price : ℚ
deriving Repr, DecidableEq

/-- `guest-app` `remove_from_cart(index)`: `pop(index)` guarded by
`0 <= index < len(cart)`; any out-of-range index leaves the cart unchanged. -/
def guestapp_remove_from_cart (cart : List GuestCartItem) (i : Int) : List GuestCartItem :=
  if 0 ≤ i ∧ i < (cart.length : Int) then
    cart.take i.toNat ++ cart.drop (i.toNat + 1)
  else cart

/-- The same route when the session may not hold a cart at all: without a
`cart` key the route only redirects. -/
def guestapp_remove_route (sessionCart : Option (List GuestCartItem)) (i : Int) :
    Option (List GuestCartItem) :=
  match sessionCart with
  | none => none
  | some c => some (guestapp_remove_from_cart c i)

/-! ## Basic lemmas about the embedded operations -/

theorem updateFirst_of_forall_not {α : Type} {p : α → Bool} {f : α → α} :
    ∀ {xs : List α}, (∀ x ∈ xs, p x = false) → updateFirst p f xs = xs
  | [], _ => rfl
  | x :: xs, h => by
    have hx : p x = false := h x (List.mem_cons_self _ _)
    simp only [updateFirst, hx, Bool.false_eq_true, if_false, List.cons.injEq, true_and]
    exact updateFirst_of_forall_not fun y hy => h y (List.mem_cons_of_mem _ hy)

theorem filter_updateFirst {α : Type} {p q : α → Bool} {f : α → α}
    (h1 : ∀ x, q x = true → p x = false) (h2 : ∀ x, q x = true → p (f x) = false) :
    ∀ xs : List α, List.filter p (updateFirst q f xs) = List.filter p xs
  | [] => rfl
  | x :: xs => by
    by_cases hq : q x = true
    · simp only [updateFirst, hq, if_true, List.filter, h1 x hq, h2 x hq]
    · have hq2 : q x = false := by revert hq; cases q x <;> simp
      simp only [updateFirst, hq2, Bool.false_eq_true, if_false, List.filter]
      cases p x <;> simp [filter_updateFirst h1 h2 xs]

theorem guest_checkout_nonempty (db : DB) (cart : List CartEntry) (newOid : String)
    (h : cart.isEmpty = false) :
    guest_checkout db cart newOid
      = (.placed (orderIdString db.orders.length),
         { db with orders := db.orders
             ++ [⟨newOid, orderIdString db.orders.length, "unconfirmed",
                 (checkoutItems db cart).1, (checkoutItems db cart).2⟩] },
         []) := by
  simp [guest_checkout, h]

/-! ## C8: cart add/remove algebra -/

/-- C8: for every cart, removing a laptop id right after adding it leaves
exactly the items referencing other laptops (from the empty cart this is the
empty cart), and removing an id that no cart item references is a no-op. -/
theorem C8_add_remove_cancel (cart : List CartEntry) (lid : String) (parts : List String) :
    remove_from_cart (add_to_cart cart lid parts) lid = remove_from_cart cart lid
    ∧ remove_from_cart (add_to_cart [] lid parts) lid = []
    ∧ ((∀ i ∈ cart, i.laptop_id ≠ lid) → remove_from_cart cart lid = cart) := by
  refine ⟨?_, ?_, ?_⟩
  · unfold add_to_cart remove_from_cart
    by_cases hany : cart.any (fun i => i.laptop_id == lid) = true
    · simp only [hany, if_true]
      exact filter_updateFirst
        (fun x hx => by simp only [bne, hx, Bool.not_true]
        )
        (fun x hx => by simp only [bne, hx, Bool.not_true]
        ) cart
    · simp only [hany, Bool.false_eq_true, if_false, List.filter_append]
      have : List.filter (fun i => i.laptop_id != lid) [(⟨lid, parts, none⟩ : CartEntry)] = [] := by
        simp [List.filter]
      rw [this, List.append_nil]
  · simp [add_to_cart, remove_from_cart, List.filter]
  · intro h
    unfold remove_from_cart
    exact List.filter_eq_self.mpr fun i hi => bne_iff_ne.mpr (h i hi)

/-- C8 witness at a concrete cart. -/
theorem C8_add_remove_cancel_witness :
    remove_from_cart (add_to_cart [⟨"A", [], none⟩] "B" ["p1"]) "B"
        = remove_from_cart [⟨"A", [], none⟩] "B"
    ∧ remove_from_cart (add_to_cart [] "B" ["p1"]) "B" = []
    ∧ ((∀ i ∈ [(⟨"A", [], none⟩ : CartEntry)], i.laptop_id ≠ "B") →
        remove_from_cart [⟨"A", [], none⟩] "B" = [⟨"A", [], none⟩]) := by
  have h := C8_add_remove_cancel [⟨"A", [], none⟩] "B" ["p1"]
  exact ⟨h.1, h.2.1, fun hall => h.2.2 hall⟩

/-! ## C10: guest-app removal by index -/

/-- C10: removing by index from the guest-app session cart removes exactly the
item at position i when 0 ≤ i &lt; n (earlier positions unchanged, later
positions shift down by one, length drops by one); every out-of-range index,
and a session without a cart, leaves the cart unchanged. -/
theorem C10_remove_by_index (cart : List GuestCartItem) (i : Int) :
    (0 ≤ i → i < (cart.length : Int) →
      (guestapp_remove_from_cart cart i).length = cart.length - 1
      ∧ (∀ j : Nat, j < i.toNat → (guestapp_remove_from_cart cart i)[j]? = cart[j]?)
      ∧ (∀ j : Nat, i.toNat ≤ j → (guestapp_remove_from_cart cart i)[j]? = cart[j + 1]?))
    ∧ (¬ (0 ≤ i ∧ i < (cart.length : Int)) → guestapp_remove_from_cart cart i = cart)
    ∧ guestapp_remove_route none i = none := by
  refine ⟨?_, ?_, rfl⟩
  · intro h1 h2
    have hin : (0 ≤ i ∧ i < (cart.length : Int)) := ⟨h1, h2⟩
    have hres : guestapp_remove_from_cart cart i
        = cart.take i.toNat ++ cart.drop (i.toNat + 1) := by
      simp [guestapp_remove_from_cart, hin]
    have hlt : i.toNat < cart.length := by omega
    have hlen_take : (cart.take i.toNat).length = i.toNat :=
      List.length_take_of_le (Nat.le_of_lt hlt)
    refine ⟨?_, ?_, ?_⟩
    · rw [hres]
      simp only [List.length_append, hlen_take, List.length_drop]
      omega
    · intro j hj
      rw [hres, List.getElem?_append_left (by omega), List.getElem?_take_of_lt hj]
    · intro j hj
      rw [hres, List.getElem?_append_right (by omega), List.getElem?_drop]
      congr 1
      omega
  · intro hout
    simp [guestapp_remove_from_cart, hout]

/-- C10 witness at a concrete three-item cart and index 1. -/
theorem C10_remove_by_index_witness :
    ((0 : Int) ≤ 1 → (1 : Int) < (([⟨"a", "", "", 1, [], 1⟩, ⟨"b", "", "", 2, [], 2⟩,
        ⟨"c", "", "", 3, [], 3⟩] : List GuestCartItem).length : Int) →
      (guestapp_remove_from_cart [⟨"a", "", "", 1, [], 1⟩, ⟨"b", "", "", 2, [], 2⟩,
          ⟨"c", "", "", 3, [], 3⟩] 1).length = 2
      ∧ (∀ j : Nat, j < (1 : Int).toNat →
          (guestapp_remove_from_cart [⟨"a", "", "", 1, [], 1⟩, ⟨"b", "", "", 2, [], 2⟩,
            ⟨"c", "", "", 3, [], 3⟩] 1)[j]?
          = ([⟨"a", "", "", 1, [], 1⟩, ⟨"b", "", "", 2, [], 2⟩,
              ⟨"c", "", "", 3, [], 3⟩] : List GuestCartItem)[j]?)
      ∧ (∀ j : Nat, (1 : Int).toNat ≤ j →
          (guestapp_remove_from_cart [⟨"a", "", "", 1, [], 1⟩, ⟨"b", "", "", 2, [], 2⟩,
            ⟨"c", "", "", 3, [], 3⟩] 1)[j]?
          = ([⟨"a", "", "", 1, [], 1⟩, ⟨"b", "", "", 2, [], 2⟩,
              ⟨"c", "", "", 3, [], 3⟩] : List GuestCartItem)[j + 1]?)) := by
  have h := C10_remove_by_index
    [⟨"a", "", "", 1, [], 1⟩, ⟨"b", "", "", 2, [], 2⟩, ⟨"c", "", "", 3, [], 3⟩] 1
  have hl : (([⟨"a", "", "", 1, [], 1⟩, ⟨"b", "", "", 2, [], 2⟩,
      ⟨"c", "", "", 3, [], 3⟩] : List GuestCartItem).length : Int) = 3 := by rfl
  intro h1 h2
  have hmain := h.1 h1 h2
  exact ⟨by simpa using hmain.1, hmain.2.1, hmain.2.2⟩

/-! ## C3: empty-cart checkout -/

/-- An empty database. -/
def exDB0 : DB := ⟨[], [], []⟩

/-- A syntactically complete API order request whose items array is empty. -/
def exReqEmptyItems : ApiOrderRequest :=
  ⟨some "n", some "e", some "p", some "a", some []⟩

/-- C3 counterexample: an order-creation request whose items array is empty is
not rejected, contrary to the claim: the API returns 201 and persists a new
order document. -/
theorem C3_counterexample :
    (api_create_order exDB0 exReqEmptyItems "oid1").1 = 201
    ∧ (api_create_order exDB0 exReqEmptyItems "oid1").2.orders.length
        = exDB0.orders.length + 1 := by
  constructor <;> rfl

/-- C3 (amended): the guest checkout route on an empty session cart only
redirects, leaving the database (hence the orders collection) and the cart
unchanged; but the API order-creation endpoint accepts an empty items array,
persisting an order with no items and total_amount 0 under HTTP 201. -/
theorem C3_empty_cart (db : DB) (newOid cn em ph ad : String) :
    guest_checkout db [] newOid = (.emptyCart, db, [])
    ∧ api_create_order db ⟨some cn, some em, some ph, some ad, some []⟩ newOid
        = (201, { db with orders := db.orders
            ++ [⟨newOid, orderIdString db.orders.length, "unconfirmed", [], 0⟩] }) := by
  exact ⟨rfl, rfl⟩

/-! ## C7: status validation on the two update routes -/

/-- A database holding one unconfirmed order and nothing else. -/
def exDB7 : DB := ⟨[], [], [⟨"o1", "ORD000001", "unconfirmed", [], 0⟩]⟩

/-- C7 counterexample: the admin status-update route performs no validation;
posting the out-of-enum status `bogus` modifies the order document, contrary
to the claim that the operation fails and no order is modified. -/
theorem C7_counterexample :
    validStatuses.contains "bogus" = false
    ∧ (findOrderByOid (admin_update_order_status exDB7 "o1" "bogus" 0) "o1").map (·.status)
        = some "bogus" := by
  constructor <;> rfl

theorem admin_update_orders_eq (db : DB) (oid s : String) (now : Nat) :
    (admin_update_order_status db oid s now).orders
      = updateFirst (fun o => o.oid == oid) (fun o => { o with status := s }) db.orders := by
  unfold admin_update_order_status
  by_cases hs : (s == "completed") = true
  · simp only [hs, if_true]
    split <;> rfl
  · simp only [hs, Bool.false_eq_true, if_false]

/-- C7 (amended): the API status-update endpoint fails with 400 when the body
has no status or a status outside the fixed enum, and with 404 when no order
carries the requested order_id, in each case leaving the database unchanged;
the admin status-update route, by contrast, performs no validation and writes
whatever status was posted to the matching order. -/
theorem C7_status_validation (db : DB) (oid s : String) (now : Nat) :
    api_update_order_status db oid none = (400, db)
    ∧ (validStatuses.contains s = false → api_update_order_status db oid (some s) = (400, db))
    ∧ (validStatuses.contains s = true → (∀ o ∈ db.orders, o.order_id ≠ oid) →
        api_update_order_status db oid (some s) = (404, db))
    ∧ (admin_update_order_status db oid s now).orders
        = updateFirst (fun o => o.oid == oid) (fun o => { o with status := s }) db.orders := by
  refine ⟨rfl, ?_, ?_, admin_update_orders_eq db oid s now⟩
  · intro h
    have hmem : s ∉ validStatuses := by simpa using h
    simp [api_update_order_status, hmem]
  · intro hvalid hnone
    have hmem : s ∈ validStatuses := by simpa using hvalid
    have hnex : ¬ ∃ o ∈ db.orders, o.order_id = oid := by
      rintro ⟨o, ho, hoe⟩
      exact hnone o ho hoe
    simp [api_update_order_status, hmem, hnex]

/-- C7 witness: the amended statement at a concrete database, status and id. -/
theorem C7_status_validation_witness :
    validStatuses.contains "nope" = false
    ∧ validStatuses.contains "confirmed" = true
    ∧ (∀ o ∈ exDB7.orders, o.order_id ≠ "ZZZ")
    ∧ api_update_order_status exDB7 "z" (some "nope") = (400, exDB7)
    ∧ api_update_order_status exDB7 "ZZZ" (some "confirmed") = (404, exDB7) := by
  refine ⟨by decide, by decide, ?_, ?_, ?_⟩
  · intro o ho
    fin_cases ho
    decide
  · exact (C7_status_validation exDB7 "z" "nope" 0).2.1 (by decide)
  · refine (C7_status_validation exDB7 "ZZZ" "confirmed" 0).2.2.1 (by decide) ?_
    intro o ho
    fin_cases ho
    decide

/-! ## C5: order-id format -/

theorem digitChars_all_digit (n : Nat) : ∀ c ∈ digitChars n, c.isDigit = true := by
  intro c hc
  simp only [digitChars, List.mem_map, List.mem_reverse] at hc
  obtain ⟨d, hd, rfl⟩ := hc
  have hd10 : d < 10 := Nat.digits_lt_base (by norm_num) hd
  interval_cases d <;> decide

theorem digits_len_le_six (n : Nat) (h : n < 10 ^ 6) : (Nat.digits 10 n).length ≤ 6 := by
  rcases Nat.eq_zero_or_pos n with rfl | hn
  · simp
  · rw [Nat.digits_len 10 n (by norm_num) (Nat.pos_iff_ne_zero.mp hn)]
    have hlog := Nat.log_lt_of_lt_pow (Nat.pos_iff_ne_zero.mp hn) h
    omega

theorem zeroPad6_spec (n : Nat) (h : n < 10 ^ 6) :
    (zeroPad6 n).length = 6 ∧ ∀ c ∈ zeroPad6 n, c.isDigit = true := by
  have hlen : (digitChars n).length ≤ 6 := by
    have := digits_len_le_six n h
    simpa [digitChars] using this
  constructor
  · simp only [zeroPad6, List.length_append, List.length_replicate]
    omega
  · intro c hc
    rcases List.mem_append.mp hc with hc | hc
    · rw [List.eq_of_mem_replicate hc]
      decide
    · exact digitChars_all_digit n c hc

/-- C5: the order id assigned when `count` orders exist is the string `ORD`
followed by `count + 1` zero-padded to 6 digits; whenever fewer than 999999
orders exist it matches `ORD` followed by exactly six decimal digits; and both
order-creation operations assign exactly this id, computed from the number of
order documents existing at creation time. -/
theorem C5_order_id_format (count : Nat) :
    orderIdString count = "ORD" ++ String.mk (zeroPad6 (count + 1))
    ∧ (count < 999999 → matchesORD6 (orderIdString count) = true)
    ∧ (∀ (db : DB) (cn em ph ad newOid : String) (its : List OrderItem),
        (api_create_order db ⟨some cn, some em, some ph, some ad, some its⟩
            newOid).2.orders.map (·.order_id)
          = db.orders.map (·.order_id) ++ [orderIdString db.orders.length])
    ∧ (∀ (db : DB) (cart : List CartEntry) (newOid : String), cart.isEmpty = false →
        (guest_checkout db cart newOid).2.1.orders.map (·.order_id)
          = db.orders.map (·.order_id) ++ [orderIdString db.orders.length]) := by
  refine ⟨rfl, ?_, ?_, ?_⟩
  case refine_2 =>
    intro db cn em ph ad newOid its
    simp [api_create_order]
  case refine_3 =>
    intro db cart newOid h
    rw [guest_checkout_nonempty db cart newOid h]
    simp
  intro h
  have hn : count + 1 < 10 ^ 6 := by norm_num; omega
  obtain ⟨hlen, hdig⟩ := zeroPad6_spec (count + 1) hn
  have hdata : (orderIdString count).data = 'O' :: 'R' :: 'D' :: zeroPad6 (count + 1) := by
    show ("ORD" ++ String.mk (zeroPad6 (count + 1))).data = _
    rw [String.data_append]
    rfl
  simp only [matchesORD6, hdata, List.take, List.drop, Bool.and_eq_true]
  refine ⟨⟨by rfl, ?_⟩, ?_⟩
  · exact beq_iff_eq.mpr hlen
  · exact List.all_eq_true.mpr fun c hc => hdig c hc

/-- C5 witness: at zero existing orders the hypotheses hold, the generated id
matches the pattern, and a concrete one-item checkout assigns it. -/
theorem C5_order_id_format_witness :
    (0 < 999999 ∧ matchesORD6 (orderIdString 0) = true)
    ∧ (([(⟨"L1", [], none⟩ : CartEntry)].isEmpty = false)
        ∧ (guest_checkout exDB0 [⟨"L1", [], none⟩] "o2").2.1.orders.map (·.order_id)
            = exDB0.orders.map (·.order_id) ++ [orderIdString exDB0.orders.length]) :=
  ⟨⟨by decide, (C5_order_id_format 0).2.1 (by decide)⟩,
   ⟨rfl, (C5_order_id_format 0).2.2.2 exDB0 [⟨"L1", [], none⟩] "o2" rfl⟩⟩

/-! ## C6: the priced cart projection -/

/-- A database whose only laptop is already sold. -/
def exDB6 : DB := ⟨[("L1", ⟨"Acme", "X1", 5, "sold", none⟩)], [], []⟩

/-- C6 counterexample: the cart view keeps an entry whose referenced laptop is
no longer `available` (here: already `sold`), contrary to the claim that such
entries are excluded — the source only drops entries whose laptop is missing. -/
theorem C6_counterexample :
    (findLaptop exDB6 "L1").map (·.status) = some "sold"
    ∧ (cartView exDB6 [⟨"L1", [], none⟩]).1.map (fun v => v.laptop.status) = ["sold"] := by
  constructor <;> rfl

theorem cartView_cons_none {db : DB} {ci : CartEntry} (rest : List CartEntry)
    (h : findLaptop db ci.laptop_id = none) :
    cartView db (ci :: rest) = cartView db rest := by
  simp [cartView, h]

theorem cartView_cons_some {db : DB} {ci : CartEntry} {l : Laptop} (rest : List CartEntry)
    (h : findLaptop db ci.laptop_id = some l) :
    cartView db (ci :: rest)
      = (⟨l, l.selling_price, ci.spare_parts.filterMap (findPart db),
          l.selling_price
            + ((ci.spare_parts.filterMap (findPart db)).map
                (fun p => p.price.getD 0)).sum⟩ :: (cartView db rest).1,
         (l.selling_price
            + ((ci.spare_parts.filterMap (findPart db)).map
                (fun p => p.price.getD 0)).sum) + (cartView db rest).2) := by
  simp [cartView, h]

theorem cartView_map_laptop (db : DB) :
    ∀ cart : List CartEntry,
      (cartView db cart).1.map (·.laptop)
        = cart.filterMap (fun ci => findLaptop db ci.laptop_id)
  | [] => rfl
  | ci :: rest => by
    cases h : findLaptop db ci.laptop_id with
    | none =>
      rw [cartView_cons_none rest h]
      simp only [List.filterMap_cons, h]
      exact cartView_map_laptop db rest
    | some l =>
      rw [cartView_cons_some rest h]
      simp only [List.filterMap_cons, h, List.map_cons]
      exact congrArg (l :: ·) (cartView_map_laptop db rest)

theorem cartView_total (db : DB) :
    ∀ cart : List CartEntry,
      (cartView db cart).2 = ((cartView db cart).1.map (·.total_price)).sum
  | [] => rfl
  | ci :: rest => by
    cases h : findLaptop db ci.laptop_id with
    | none =>
      rw [cartView_cons_none rest h]
      exact cartView_total db rest
    | some l =>
      rw [cartView_cons_some rest h]
      simp only [List.map_cons, List.sum_cons]
      exact congrArg _ (cartView_total db rest)

theorem cartView_item_price (db : DB) :
    ∀ cart : List CartEntry, ∀ v ∈ (cartView db cart).1,
      v.total_price = v.laptop.selling_price
        + (v.spare_parts.map (fun p => p.price.getD 0)).sum
  | [] => by intro v hv; cases hv
  | ci :: rest => by
    intro v hv
    cases h : findLaptop db ci.laptop_id with
    | none =>
      rw [cartView_cons_none rest h] at hv
      exact cartView_item_price db rest v hv
    | some l =>
      rw [cartView_cons_some rest h] at hv
      rcases List.mem_cons.mp hv with rfl | hv
      · rfl
      · exact cartView_item_price db rest v hv

theorem cartView_item_source (db : DB) :
    ∀ cart : List CartEntry, ∀ v ∈ (cartView db cart).1,
      ∃ ci ∈ cart, findLaptop db ci.laptop_id = some v.laptop
        ∧ v.spare_parts = ci.spare_parts.filterMap (findPart db)
  | [] => by intro v hv; cases hv
  | ci :: rest => by
    intro v hv
    cases h : findLaptop db ci.laptop_id with
    | none =>
      rw [cartView_cons_none rest h] at hv
      obtain ⟨ci2, hci2, hprop⟩ := cartView_item_source db rest v hv
      exact ⟨ci2, List.mem_cons_of_mem _ hci2, hprop⟩
    | some l =>
      rw [cartView_cons_some rest h] at hv
      rcases List.mem_cons.mp hv with rfl | hv
      · exact ⟨ci, List.mem_cons_self _ _, h, rfl⟩
      · obtain ⟨ci2, hci2, hprop⟩ := cartView_item_source db rest v hv
        exact ⟨ci2, List.mem_cons_of_mem _ hci2, hprop⟩

/-- C6 (amended): the cart view drops exactly the entries whose referenced
laptop no longer exists; every entry whose laptop exists is included —
regardless of its status — with total_price equal to the laptop's selling
price plus the sum of the resolved spare-part prices, and the page total is
the sum of the included totals. -/
theorem C6_cart_view (db : DB) (cart : List CartEntry) :
    (cartView db cart).1.map (·.laptop) = cart.filterMap (fun ci => findLaptop db ci.laptop_id)
    ∧ (∀ v ∈ (cartView db cart).1,
        v.total_price = v.laptop.selling_price
          + (v.spare_parts.map (fun p => p.price.getD 0)).sum)
    ∧ (∀ v ∈ (cartView db cart).1, ∃ ci ∈ cart,
        findLaptop db ci.laptop_id = some v.laptop
        ∧ v.spare_parts = ci.spare_parts.filterMap (findPart db))
    ∧ (cartView db cart).2 = ((cartView db cart).1.map (·.total_price)).sum :=
  ⟨cartView_map_laptop db cart, cartView_item_price db cart,
    cartView_item_source db cart, cartView_total db cart⟩

/-- C6 witness: the amended cart-view statement at the concrete database whose
only laptop is sold and a one-entry cart. -/
theorem C6_cart_view_witness :
    (cartView exDB6 [⟨"L1", [], none⟩]).1.map (·.laptop)
        = ([(⟨"L1", [], none⟩ : CartEntry)]).filterMap (fun ci => findLaptop exDB6 ci.laptop_id)
    ∧ (∀ v ∈ (cartView exDB6 [⟨"L1", [], none⟩]).1,
        v.total_price = v.laptop.selling_price
          + (v.spare_parts.map (fun p => p.price.getD 0)).sum)
    ∧ (∀ v ∈ (cartView exDB6 [⟨"L1", [], none⟩]).1, ∃ ci ∈ [(⟨"L1", [], none⟩ : CartEntry)],
        findLaptop exDB6 ci.laptop_id = some v.laptop
        ∧ v.spare_parts = ci.spare_parts.filterMap (findPart exDB6))
    ∧ (cartView exDB6 [⟨"L1", [], none⟩]).2
        = ((cartView exDB6 [⟨"L1", [], none⟩]).1.map (·.total_price)).sum :=
  C6_cart_view exDB6 [⟨"L1", [], none⟩]

/-! ## C4 and C2: the checkout item loop -/

/-- Availability of a referenced laptop at resolution time, as tested by the
checkout loop: the laptop exists and its status is `available`. -/
def laptopAvailable (db : DB) (id : String) : Bool :=
  match findLaptop db id with
  | some l => l.status == "available"
  | none => false

/-- The checkout-time total of a cart item: resolved selling price plus the
resolved spare-part prices (0 for an unresolvable laptop; only used under
`laptopAvailable`). -/
def cartItemTotal (db : DB) (ci : CartEntry) : ℚ :=
  match findLaptop db ci.laptop_id with
  | some l => l.selling_price + partsSum (resolvedParts db ci.spare_parts)
  | none => 0

theorem checkoutItems_cons_none {db : DB} {ci : CartEntry} (rest : List CartEntry)
    (h : findLaptop db ci.laptop_id = none) :
    checkoutItems db (ci :: rest) = checkoutItems db rest := by
  simp [checkoutItems, h]

theorem checkoutItems_cons_sold {db : DB} {ci : CartEntry} {l : Laptop}
    (rest : List CartEntry) (h : findLaptop db ci.laptop_id = some l)
    (hs : (l.status == "available") = false) :
    checkoutItems db (ci :: rest) = checkoutItems db rest := by
  simp [checkoutItems, h, hs]

theorem checkoutItems_cons_avail {db : DB} {ci : CartEntry} {l : Laptop}
    (rest : List CartEntry) (h : findLaptop db ci.laptop_id = some l)
    (hs : (l.status == "available") = true) :
    checkoutItems db (ci :: rest)
      = (⟨ci.laptop_id, l.brand, l.model, l.selling_price, resolvedParts db ci.spare_parts,
          some (l.selling_price + partsSum (resolvedParts db ci.spare_parts))⟩
            :: (checkoutItems db rest).1,
         (l.selling_price + partsSum (resolvedParts db ci.spare_parts))
           + (checkoutItems db rest).2) := by
  simp [checkoutItems, h, hs]

theorem checkoutItems_ids (db : DB) :
    ∀ cart : List CartEntry,
      (checkoutItems db cart).1.map (·.laptop_id)
        = (cart.filter (fun ci => laptopAvailable db ci.laptop_id)).map (·.laptop_id)
  | [] => rfl
  | ci :: rest => by
    cases h : findLaptop db ci.laptop_id with
    | none =>
      rw [checkoutItems_cons_none rest h]
      have hav : laptopAvailable db ci.laptop_id = false := by simp [laptopAvailable, h]
      simp only [List.filter_cons, hav, Bool.false_eq_true, if_false]
      exact checkoutItems_ids db rest
    | some l =>
      cases hs : (l.status == "available") with
      | false =>
        rw [checkoutItems_cons_sold rest h hs]
        have hav : laptopAvailable db ci.laptop_id = false := by simp [laptopAvailable, h, hs]
        simp only [List.filter_cons, hav, Bool.false_eq_true, if_false]
        exact checkoutItems_ids db rest
      | true =>
        rw [checkoutItems_cons_avail rest h hs]
        have hav : laptopAvailable db ci.laptop_id = true := by simp [laptopAvailable, h, hs]
        simp only [List.filter_cons, hav, if_true, List.map_cons]
        exact congrArg (ci.laptop_id :: ·) (checkoutItems_ids db rest)

theorem checkoutItems_total_filter (db : DB) :
    ∀ cart : List CartEntry,
      (checkoutItems db cart).2
        = ((cart.filter (fun ci => laptopAvailable db ci.laptop_id)).map
            (cartItemTotal db)).sum
  | [] => rfl
  | ci :: rest => by
    cases h : findLaptop db ci.laptop_id with
    | none =>
      rw [checkoutItems_cons_none rest h]
      have hav : laptopAvailable db ci.laptop_id = false := by simp [laptopAvailable, h]
      simp only [List.filter_cons, hav, Bool.false_eq_true, if_false]
      exact checkoutItems_total_filter db rest
    | some l =>
      cases hs : (l.status == "available") with
      | false =>
        rw [checkoutItems_cons_sold rest h hs]
        have hav : laptopAvailable db ci.laptop_id = false := by simp [laptopAvailable, h, hs]
        simp only [List.filter_cons, hav, Bool.false_eq_true, if_false]
        exact checkoutItems_total_filter db rest
      | true =>
        rw [checkoutItems_cons_avail rest h hs]
        have hav : laptopAvailable db ci.laptop_id = true := by simp [laptopAvailable, h, hs]
        have hct : cartItemTotal db ci
            = l.selling_price + partsSum (resolvedParts db ci.spare_parts) := by
          simp [cartItemTotal, h]
        simp only [List.filter_cons, hav, if_true, List.map_cons, List.sum_cons, hct]
        exact congrArg _ (checkoutItems_total_filter db rest)

/-- C4: the checkout loop includes exactly the cart items whose laptop
resolves as `available`: the persisted items (by laptop id) are the filter of
the cart by availability, the computed total_amount is the sum of the
resolved totals of just those items, every skipped item's laptop id appears
nowhere among the persisted items, and every available item's laptop id
appears. -/
theorem C4_checkout_skips_unavailable (db : DB) (cart : List CartEntry) :
    (checkoutItems db cart).1.map (·.laptop_id)
        = (cart.filter (fun ci => laptopAvailable db ci.laptop_id)).map (·.laptop_id)
    ∧ (checkoutItems db cart).2
        = ((cart.filter (fun ci => laptopAvailable db ci.laptop_id)).map
            (cartItemTotal db)).sum
    ∧ (∀ ci ∈ cart, laptopAvailable db ci.laptop_id = false →
        ci.laptop_id ∉ (checkoutItems db cart).1.map (·.laptop_id))
    ∧ (∀ ci ∈ cart, laptopAvailable db ci.laptop_id = true →
        ci.laptop_id ∈ (checkoutItems db cart).1.map (·.laptop_id)) := by
  refine ⟨checkoutItems_ids db cart, checkoutItems_total_filter db cart, ?_, ?_⟩
  · intro ci hci hav hmem
    rw [checkoutItems_ids db cart] at hmem
    obtain ⟨ci2, hci2, hid⟩ := List.mem_map.mp hmem
    have hav2 := (List.mem_filter.mp hci2).2
    rw [hid, hav] at hav2
    exact Bool.false_ne_true hav2
  · intro ci hci hav
    rw [checkoutItems_ids db cart]
    exact List.mem_map.mpr ⟨ci, List.mem_filter.mpr ⟨hci, hav⟩, rfl⟩

/-- C4 witness: a two-item cart over a database with one available and one
sold laptop. -/
theorem C4_checkout_skips_unavailable_witness :
    ((checkoutItems ⟨[("L1", ⟨"A", "M", 5, "available", none⟩),
        ("L2", ⟨"B", "N", 7, "sold", none⟩)], [], []⟩
        [⟨"L1", [], none⟩, ⟨"L2", [], none⟩]).1.map (·.laptop_id) = ["L1"])
    ∧ (checkoutItems ⟨[("L1", ⟨"A", "M", 5, "available", none⟩),
        ("L2", ⟨"B", "N", 7, "sold", none⟩)], [], []⟩
        [⟨"L1", [], none⟩, ⟨"L2", [], none⟩]).2 = 5 := by
  have h := C4_checkout_skips_unavailable
    ⟨[("L1", ⟨"A", "M", 5, "available", none⟩), ("L2", ⟨"B", "N", 7, "sold", none⟩)], [], []⟩
    [⟨"L1", [], none⟩, ⟨"L2", [], none⟩]
  constructor
  · rw [h.1]; rfl
  · rw [h.2.1]
    show (5 : ℚ) + 0 + 0 = 5
    ring

theorem checkoutItems_total_eq_sum_items (db : DB) :
    ∀ cart : List CartEntry,
      (checkoutItems db cart).2
        = ((checkoutItems db cart).1.map (fun i => i.total_price.getD 0)).sum
  | [] => rfl
  | ci :: rest => by
    cases h : findLaptop db ci.laptop_id with
    | none =>
      rw [checkoutItems_cons_none rest h]
      exact checkoutItems_total_eq_sum_items db rest
    | some l =>
      cases hs : (l.status == "available") with
      | false =>
        rw [checkoutItems_cons_sold rest h hs]
        exact checkoutItems_total_eq_sum_items db rest
      | true =>
        rw [checkoutItems_cons_avail rest h hs]
        simp only [List.map_cons, List.sum_cons, Option.getD_some]
        exact congrArg _ (checkoutItems_total_eq_sum_items db rest)

theorem resolvedParts_mem (db : DB) (pids : List String) :
    ∀ d ∈ resolvedParts db pids,
      ∃ p, findPart db d.part_id = some p ∧ d.name = p.name ∧ d.price = p.price.getD 0 := by
  intro d hd
  obtain ⟨pid, _, heq⟩ := List.mem_filterMap.mp hd
  cases hp : findPart db pid with
  | none => rw [hp] at heq; cases heq
  | some p =>
    rw [hp] at heq
    simp only [Option.map_some'] at heq
    rw [← Option.some_inj.mp heq]
    exact ⟨p, hp, rfl, rfl⟩

theorem checkoutItems_item_source (db : DB) :
    ∀ cart : List CartEntry, ∀ it ∈ (checkoutItems db cart).1,
      ∃ l, findLaptop db it.laptop_id = some l
        ∧ l.status = "available"
        ∧ it.base_price = l.selling_price
        ∧ it.total_price = some (it.base_price + partsSum it.spare_parts)
        ∧ ∀ d ∈ it.spare_parts,
            ∃ p, findPart db d.part_id = some p ∧ d.name = p.name ∧ d.price = p.price.getD 0
  | [] => by intro it hit; cases hit
  | ci :: rest => by
    intro it hit
    cases h : findLaptop db ci.laptop_id with
    | none =>
      rw [checkoutItems_cons_none rest h] at hit
      exact checkoutItems_item_source db rest it hit
    | some l =>
      cases hs : (l.status == "available") with
      | false =>
        rw [checkoutItems_cons_sold rest h hs] at hit
        exact checkoutItems_item_source db rest it hit
      | true =>
        rw [checkoutItems_cons_avail rest h hs] at hit
        rcases List.mem_cons.mp hit with rfl | hit
        · exact ⟨l, h, beq_iff_eq.mp hs, rfl, rfl, resolvedParts_mem db ci.spare_parts⟩
        · exact checkoutItems_item_source db rest it hit

/-- A database with one available laptop priced 5 and no spare parts. -/
def exDB2 : DB := ⟨[("L1", ⟨"Acme", "X1", 5, "available", none⟩)], [], []⟩

/-- A client-sent order item claiming total_price 999 for that laptop. -/
def exItem2 : OrderItem := ⟨"L1", "Acme", "X1", 999, [], some 999⟩

/-- C2 counterexample: the API order-creation endpoint persists a client-sent
item verbatim — the persisted item's total_price is 999 although the resolved
laptop selling price plus the (empty) resolved spare-part prices is 5 — so the
claim's clause that every persisted item's total_price equals the resolved
catalog price fails on this checkout entry point. -/
theorem C2_counterexample :
    (api_create_order exDB2 ⟨some "n", some "e", some "p", some "a", some [exItem2]⟩
        "oid2").1 = 201
    ∧ (api_create_order exDB2 ⟨some "n", some "e", some "p", some "a", some [exItem2]⟩
        "oid2").2.orders.map (·.items) = [[exItem2]]
    ∧ exItem2.total_price = some 999
    ∧ (findLaptop exDB2 exItem2.laptop_id).map (·.selling_price) = some 5
    ∧ exItem2.spare_parts = []
    ∧ (999 : ℚ) ≠ 5 + partsSum exItem2.spare_parts := by
  refine ⟨rfl, rfl, rfl, rfl, rfl, ?_⟩
  show (999 : ℚ) ≠ 5 + 0
  norm_num

/-- C2 (amended): for every non-empty checkout through the guest route, the persisted
order's total_amount equals the sum of its items' total_price, and each item's
total_price is the resolved laptop selling price (= its base_price) plus the
sum of its resolved spare-part prices; for the API order-creation endpoint,
the persisted total_amount is likewise the sum over the submitted items of
`item.get('total_price', 0)`. -/
theorem C2_order_total (db : DB) (cart : List CartEntry) (newOid : String)
    (h : cart ≠ []) :
    (∃ o : Order,
      (guest_checkout db cart newOid).2.1.orders = db.orders ++ [o]
      ∧ o.total_amount = (o.items.map (fun i => i.total_price.getD 0)).sum
      ∧ (∀ it ∈ o.items, ∃ l, findLaptop db it.laptop_id = some l
          ∧ l.status = "available"
          ∧ it.base_price = l.selling_price
          ∧ it.total_price = some (it.base_price + partsSum it.spare_parts)
          ∧ ∀ d ∈ it.spare_parts,
              ∃ p, findPart db d.part_id = some p ∧ d.price = p.price.getD 0))
    ∧ (∀ cn em ph ad : String, ∀ its : List OrderItem,
        (api_create_order db ⟨some cn, some em, some ph, some ad, some its⟩ newOid).2.orders
          = db.orders ++ [⟨newOid, orderIdString db.orders.length, "unconfirmed", its,
              (its.map (fun i => i.total_price.getD 0)).sum⟩]) := by
  constructor
  · have hne : cart.isEmpty = false := by
      cases cart with
      | nil => exact absurd rfl h
      | cons a rest => rfl
    refine ⟨⟨newOid, orderIdString db.orders.length, "unconfirmed",
      (checkoutItems db cart).1, (checkoutItems db cart).2⟩, ?_, ?_, ?_⟩
    · rw [guest_checkout_nonempty db cart newOid hne]
    · exact checkoutItems_total_eq_sum_items db cart
    · intro it hit
      obtain ⟨l, h1, h2, h3, h4, h5⟩ := checkoutItems_item_source db cart it hit
      exact ⟨l, h1, h2, h3, h4, fun d hd => ⟨(h5 d hd).choose, (h5 d hd).choose_spec.1,
        (h5 d hd).choose_spec.2.2⟩⟩
  · intro cn em ph ad its
    rfl

/-- C2 witness: a one-item cart over a database with one available laptop and
one priced spare part. -/
theorem C2_order_total_witness :
    ([(⟨"L1", ["P1"], none⟩ : CartEntry)] ≠ [])
    ∧ (∃ o : Order,
      (guest_checkout ⟨[("L1", ⟨"A", "M", 5, "available", none⟩)],
          [("P1", ⟨"ram", some 2⟩)], []⟩ [⟨"L1", ["P1"], none⟩] "oid9").2.1.orders
        = (⟨[("L1", ⟨"A", "M", 5, "available", none⟩)],
            [("P1", ⟨"ram", some 2⟩)], []⟩ : DB).orders ++ [o]
      ∧ o.total_amount = (o.items.map (fun i => i.total_price.getD 0)).sum
      ∧ (∀ it ∈ o.items, ∃ l,
          findLaptop ⟨[("L1", ⟨"A", "M", 5, "available", none⟩)],
            [("P1", ⟨"ram", some 2⟩)], []⟩ it.laptop_id = some l
          ∧ l.status = "available"
          ∧ it.base_price = l.selling_price
          ∧ it.total_price = some (it.base_price + partsSum it.spare_parts)
          ∧ ∀ d ∈ it.spare_parts,
              ∃ p, findPart ⟨[("L1", ⟨"A", "M", 5, "available", none⟩)],
                [("P1", ⟨"ram", some 2⟩)], []⟩ d.part_id = some p
                ∧ d.price = p.price.getD 0)) := by
  constructor
  · intro hx
    cases hx
  · exact (C2_order_total ⟨[("L1", ⟨"A", "M", 5, "available", none⟩)],
      [("P1", ⟨"ram", some 2⟩)], []⟩ [⟨"L1", ["P1"], none⟩] "oid9" (by intro hx; cases hx)).1

/-! ## C9: quantity handling at checkout vs on the display page -/

theorem checkout_display_cons_some {db : DB} {ci : CartEntry} {l : Laptop}
    (rest : List CartEntry) (h : findLaptop db ci.laptop_id = some l) :
    checkout_display db (ci :: rest)
      = (⟨l, ci.spare_parts.filterMap (findPart db), ci.quantity.getD 1,
          l.selling_price * (ci.quantity.getD 1 : ℚ)
            + ((ci.spare_parts.filterMap (findPart db)).map
                (fun p => p.price.getD 0)).sum⟩ :: (checkout_display db rest).1,
         (l.selling_price * (ci.quantity.getD 1 : ℚ)
            + ((ci.spare_parts.filterMap (findPart db)).map
                (fun p => p.price.getD 0)).sum) + (checkout_display db rest).2) := by
  simp [checkout_display, h]

theorem resolvedParts_sum_eq (db : DB) :
    ∀ pids : List String,
      partsSum (resolvedParts db pids)
        = ((pids.filterMap (findPart db)).map (fun p => p.price.getD 0)).sum
  | [] => rfl
  | pid :: rest => by
    cases hp : findPart db pid with
    | none =>
      simp only [resolvedParts, partsSum, List.filterMap_cons, hp]
      exact resolvedParts_sum_eq db rest
    | some p =>
      simp only [resolvedParts, partsSum, List.filterMap_cons, hp, List.map_cons, List.sum_cons]
      exact congrArg _ (resolvedParts_sum_eq db rest)

/-- C9: the checkout POST branch ignores a cart item's quantity entirely — the
persisted single-item order total counts the selling price exactly once — while
the checkout display page prices the same item at selling_price times quantity;
hence for quantity at least 2 (and a positive selling price) the displayed cart
total and the persisted total_amount differ. -/
theorem C9_quantity_ignored (db : DB) (ci : CartEntry) (l : Laptop) (q : Nat)
    (hl : findLaptop db ci.laptop_id = some l)
    (hq : ci.quantity = some q)
    (hs : l.status = "available") :
    (∀ q2 : Option Nat,
      checkoutItems db [{ ci with quantity := q2 }] = checkoutItems db [ci])
    ∧ (checkoutItems db [ci]).2 = l.selling_price + partsSum (resolvedParts db ci.spare_parts)
    ∧ (checkout_display db [ci]).2
        = l.selling_price * (q : ℚ) + partsSum (resolvedParts db ci.spare_parts)
    ∧ (2 ≤ q → 0 < l.selling_price →
        (checkout_display db [ci]).2 ≠ (checkoutItems db [ci]).2) := by
  have hsb : (l.status == "available") = true := beq_iff_eq.mpr hs
  have hpersist : (checkoutItems db [ci]).2
      = l.selling_price + partsSum (resolvedParts db ci.spare_parts) := by
    rw [checkoutItems_cons_avail [] hl hsb]
    show (l.selling_price + partsSum (resolvedParts db ci.spare_parts)) + 0 = _
    ring
  have hdisplay : (checkout_display db [ci]).2
      = l.selling_price * (q : ℚ) + partsSum (resolvedParts db ci.spare_parts) := by
    rw [checkout_display_cons_some [] hl, resolvedParts_sum_eq db ci.spare_parts]
    show (l.selling_price * ((ci.quantity.getD 1 : Nat) : ℚ)
        + ((ci.spare_parts.filterMap (findPart db)).map (fun p => p.price.getD 0)).sum) + 0 = _
    rw [hq]
    show l.selling_price * ((q : Nat) : ℚ) + _ + 0 = _
    ring
  refine ⟨?_, hpersist, hdisplay, ?_⟩
  · intro q2
    rfl
  · intro hq2 hp heq
    rw [hdisplay, hpersist] at heq
    have hq2r : (2 : ℚ) ≤ (q : ℚ) := by exact_mod_cast hq2
    have hpos : 0 < l.selling_price * ((q : ℚ) - 1) := by
      apply mul_pos hp
      linarith
    nlinarith [heq, hpos]

/-- C9 witness: a quantity-2 item over a single available laptop priced 5. -/
theorem C9_quantity_ignored_witness :
    findLaptop ⟨[("L1", ⟨"A", "M", 5, "available", none⟩)], [], []⟩ "L1"
        = some ⟨"A", "M", 5, "available", none⟩
    ∧ (⟨"L1", [], some 2⟩ : CartEntry).quantity = some 2
    ∧ (⟨"A", "M", 5, "available", none⟩ : Laptop).status = "available"
    ∧ ((2 ≤ 2 → 0 < (⟨"A", "M", 5, "available", none⟩ : Laptop).selling_price →
        (checkout_display ⟨[("L1", ⟨"A", "M", 5, "available", none⟩)], [], []⟩
            [⟨"L1", [], some 2⟩]).2
          ≠ (checkoutItems ⟨[("L1", ⟨"A", "M", 5, "available", none⟩)], [], []⟩
            [⟨"L1", [], some 2⟩]).2)) := by
  refine ⟨rfl, rfl, rfl, ?_⟩
  have h := C9_quantity_ignored ⟨[("L1", ⟨"A", "M", 5, "available", none⟩)], [], []⟩
    ⟨"L1", [], some 2⟩ ⟨"A", "M", 5, "available", none⟩ 2 rfl rfl rfl
  exact h.2.2.2

/-! ## C1: the completed-order cascade -/

theorem find?_updateFirst_pres {α : Type} {p : α → Bool} {f : α → α}
    (hpf : ∀ x, p (f x) = p x) :
    ∀ xs : List α, (updateFirst p f xs).find? p = (xs.find? p).map f
  | [] => rfl
  | x :: xs => by
    by_cases hx : p x = true
    · simp only [updateFirst, hx, if_true]
      rw [List.find?_cons_of_pos _ (show p (f x) from by rw [hpf]; exact hx),
        List.find?_cons_of_pos _ hx, Option.map_some']
    · have hx0 : p x = false := by revert hx; cases p x <;> simp
      simp only [updateFirst, hx0, Bool.false_eq_true, if_false]
      rw [List.find?_cons_of_neg _ hx, List.find?_cons_of_neg _ hx,
        find?_updateFirst_pres hpf xs]

theorem updateFirst_nodup_key (g : Laptop → Laptop) (k : String) :
    ∀ xs : List (String × Laptop), (xs.map Prod.fst).Nodup →
      updateFirst (fun p => p.1 == k) (fun p => (p.1, g p.2)) xs
        = xs.map (fun p => if p.1 = k then (p.1, g p.2) else p)
  | [], _ => rfl
  | x :: xs, h => by
    rcases x with ⟨k1, l1⟩
    by_cases hk : k1 = k
    · subst hk
      have h2 : (k1 :: xs.map Prod.fst).Nodup := by simpa using h
      have hnotin : k1 ∉ xs.map Prod.fst := (List.nodup_cons.mp h2).1
      have hmap : xs.map (fun p => if p.1 = k1 then (p.1, g p.2) else p) = xs := by
        have : xs.map (fun p => if p.1 = k1 then (p.1, g p.2) else p) = xs.map id := by
          apply List.map_congr_left
          intro p hp
          have hne : p.1 ≠ k1 := by
            intro hpe
            exact hnotin (hpe ▸ List.mem_map_of_mem Prod.fst hp)
          simp [hne]
        rw [this, List.map_id]
      simp only [updateFirst, beq_self_eq_true, if_true, List.map_cons, if_pos rfl, hmap]
    · have hkb : ((k1, l1).1 == k) = false := beq_eq_false_iff_ne.mpr hk
      have h2 : (k1 :: xs.map Prod.fst).Nodup := by simpa using h
      have htail : (xs.map Prod.fst).Nodup := (List.nodup_cons.mp h2).2
      simp only [updateFirst, hkb, Bool.false_eq_true, if_false, List.map_cons, if_neg hk]
      exact congrArg _ (updateFirst_nodup_key g k xs htail)

theorem keys_map_if (g : Laptop → Laptop) (k : String) (xs : List (String × Laptop)) :
    (xs.map (fun p => if p.1 = k then (p.1, g p.2) else p)).map Prod.fst = xs.map Prod.fst := by
  rw [List.map_map]
  apply List.map_congr_left
  intro p hp
  by_cases h1 : p.1 = k <;> simp [h1]

theorem sellItems_eq_map (now : Nat) :
    ∀ (ids : List String) (laptops : List (String × Laptop)),
      (laptops.map Prod.fst).Nodup →
      sellItems now laptops ids
        = laptops.map (fun p => if p.1 ∈ ids then (p.1, markSold now p.2) else p)
  | [], laptops, _ => by
    have : laptops.map (fun p => if p.1 ∈ ([] : List String) then (p.1, markSold now p.2) else p)
        = laptops.map id := by
      apply List.map_congr_left
      intro p _
      simp
    rw [this, List.map_id]
    rfl
  | id :: ids, laptops, h => by
    have hstep : sellItems now laptops (id :: ids)
        = sellItems now
            (updateFirst (fun p => p.1 == id) (fun p => (p.1, markSold now p.2)) laptops)
            ids := rfl
    rw [hstep, updateFirst_nodup_key (markSold now) id laptops h]
    rw [sellItems_eq_map now ids _ (by rw [keys_map_if]; exact h)]
    rw [List.map_map]
    apply List.map_congr_left
    intro p _
    by_cases h1 : p.1 = id
    · by_cases h2 : p.1 ∈ ids <;> simp [Function.comp, h1, h2, markSold]
    · by_cases h2 : p.1 ∈ ids <;> simp [Function.comp, h1, h2]

theorem admin_update_completed (db : DB) (oid : String) (now : Nat) (o : Order)
    (ho : findOrderByOid db oid = some o)
    (hn : (db.laptops.map Prod.fst).Nodup) :
    (admin_update_order_status db oid "completed" now).laptops
      = db.laptops.map (fun p =>
          if p.1 ∈ o.items.map (·.laptop_id) then (p.1, markSold now p.2) else p) := by
  have hc : (("completed" : String) == "completed") = true := by decide
  have hfind : findOrderByOid
      { db with
        orders := updateFirst (fun o2 => o2.oid == oid)
            (fun o2 => { o2 with status := "completed" }) db.orders }
      oid = some { o with status := "completed" } := by
    show (updateFirst (fun o2 => o2.oid == oid)
          (fun o2 => { o2 with status := "completed" }) db.orders).find?
        (fun o2 => o2.oid == oid) = _
    rw [find?_updateFirst_pres (p := fun o2 => o2.oid == oid)
      (f := fun o2 => { o2 with status := "completed" }) (fun x => rfl) db.orders]
    show (findOrderByOid db oid).map _ = _
    rw [ho]
    rfl
  unfold admin_update_order_status
  simp only [hc, if_true, hfind]
  exact sellItems_eq_map now (o.items.map (·.laptop_id)) db.laptops hn

/-- A database with one available laptop and one unconfirmed order holding
that laptop as its single item. -/
def exDB1 : DB :=
  ⟨[("L1", ⟨"Acme", "X1", 5, "available", none⟩)], [],
   [⟨"o1", "ORD000001", "unconfirmed", [⟨"L1", "Acme", "X1", 5, [], some 5⟩], 5⟩]⟩

/-- C1 counterexample: the API status-update endpoint sets an order to
`completed` (HTTP 200) without touching the referenced laptop, which stays
`available` — contrary to the claim that every status-update operation marks
the referenced laptops sold exactly on `completed`. -/
theorem C1_counterexample :
    (api_update_order_status exDB1 "ORD000001" (some "completed")).1 = 200
    ∧ (findOrderByOid
        (api_update_order_status exDB1 "ORD000001" (some "completed")).2 "o1").map (·.status)
        = some "completed"
    ∧ (findLaptop
        (api_update_order_status exDB1 "ORD000001" (some "completed")).2 "L1").map (·.status)
        = some "available" := by
  exact ⟨rfl, rfl, rfl⟩

/-- C1 (amended): the admin status-update route performs the cascade exactly
on `completed` — for any other posted status the laptops collection is
untouched, and on `completed` (with distinct laptop keys, as Mongo ids are)
every laptop referenced by the order's items is set to `sold` with
`date_sold = now` while every other laptop is unchanged; the API status-update
endpoint, by contrast, never modifies any laptop, for any body. -/
theorem C1_completed_cascade (db : DB) (oid s : String) (now : Nat) (o : Order) :
    (s ≠ "completed" → (admin_update_order_status db oid s now).laptops = db.laptops)
    ∧ (findOrderByOid db oid = some o → (db.laptops.map Prod.fst).Nodup →
        (admin_update_order_status db oid "completed" now).laptops
          = db.laptops.map (fun p =>
              if p.1 ∈ o.items.map (·.laptop_id) then (p.1, markSold now p.2) else p))
    ∧ (∀ body : Option String,
        (api_update_order_status db oid body).2.laptops = db.laptops) := by
  refine ⟨?_, fun ho hn => admin_update_completed db oid now o ho hn, ?_⟩
  · intro hs
    have hsb : (s == "completed") = false := beq_eq_false_iff_ne.mpr hs
    unfold admin_update_order_status
    simp only [hsb, Bool.false_eq_true, if_false]
  · intro body
    cases body with
    | none => rfl
    | some s2 =>
      show (if validStatuses.contains s2 then _ else _ : Nat × DB).2.laptops = db.laptops
      split
      · split <;> rfl
      · rfl

/-- C1 witness: the amended statement at the concrete database, with a
non-completed status and with the completed cascade. -/
theorem C1_completed_cascade_witness :
    ("confirmed" : String) ≠ "completed"
    ∧ findOrderByOid exDB1 "o1"
        = some ⟨"o1", "ORD000001", "unconfirmed", [⟨"L1", "Acme", "X1", 5, [], some 5⟩], 5⟩
    ∧ (exDB1.laptops.map Prod.fst).Nodup
    ∧ (admin_update_order_status exDB1 "o1" "confirmed" 7).laptops = exDB1.laptops
    ∧ (admin_update_order_status exDB1 "o1" "completed" 7).laptops
        = exDB1.laptops.map (fun p =>
            if p.1 ∈ ([⟨"L1", "Acme", "X1", 5, [], some 5⟩] : List OrderItem).map (·.laptop_id)
            then (p.1, markSold 7 p.2) else p) := by
  have h := C1_completed_cascade exDB1 "o1" "confirmed" 7
    ⟨"o1", "ORD000001", "unconfirmed", [⟨"L1", "Acme", "X1", 5, [], some 5⟩], 5⟩
  refine ⟨by decide, rfl, by decide, h.1 (by decide), h.2.1 rfl (by decide)⟩

end Shop
